import Mathlib

/-!
Verification of the Bresser 5-in-1 weather logger
(src/Bresser5in1_CC1101.cpp): a shallow embedding of the frame
decoder, the wake-time token encoder, and the sampling state machine,
together with theorems settling the specification claims.

Machine bytes are modelled as `Nat` (with explicit `% 256` where the
C code uses a `uint8_t` accumulator and with `% 2 ^ 64` where it uses
`uint64_t`), and the `float` fields of `WeatherData` are modelled as
exact rationals, with the C literal `0.1f` rendered as `1 / 10`.
-/

set_option maxHeartbeats 1000000
set_option maxRecDepth 4000

/-- The `WeatherData` struct filled by `decodeBresser5In1Payload`
(declared in `WeatherDataBuffer.h`; field set and types read off the
uses in the source file). -/
structure WeatherData where
  sensor_id : Nat
  temp_c : ℚ
  humidity : Nat
  wind_direction_deg : ℚ
  wind_gust_meter_sec : ℚ
  wind_avg_meter_sec : ℚ
  rain_mm : ℚ
  battery_ok : Bool
  pressure : ℚ
deriving DecidableEq

/-- `WeatherData weatherData = { 0 }` in `capture`. -/
def zeroWeatherData : WeatherData :=
  { sensor_id := 0, temp_c := 0, humidity := 0, wind_direction_deg := 0,
    wind_gust_meter_sec := 0, wind_avg_meter_sec := 0, rain_mm := 0,
    battery_ok := false, pressure := 0 }

/-- The `DecodeStatus` enum.  The C enum constructors carry no data;
the offset printed by the parity diagnostic and the actual/expected
pair printed by the checksum diagnostic at the two error-return sites
are modelled as payloads of the corresponding constructors. -/
inductive DecodeStatus where
  | ok : DecodeStatus
  | parErr (offset : Nat) : DecodeStatus
  | chkErr (actual expected : Nat) : DecodeStatus
deriving DecidableEq

/-- One step of the inner `while (currentByte)` loop iterated to
exhaustion: repeatedly add the low bit of `b` into the 8-bit
accumulator `acc` (wrapping mod 256, as `uint8_t bitsSet` does) and
shift `b` right.  Structural recursion on a fuel argument that starts
at `b`; since `b` strictly decreases, the fuel never runs out. -/
def addPopcWrapFuel : Nat → Nat → Nat → Nat
  | 0, acc, _ => acc
  | fuel + 1, acc, b =>
    if b = 0 then acc else addPopcWrapFuel fuel ((acc + b % 2) % 256) (b / 2)

/-- Fold one byte of the checksum region into the 8-bit accumulator. -/
def addPopcWrap (acc b : Nat) : Nat := addPopcWrapFuel b acc b

/-- Mathematical population count, fuel-driven so that it reduces in
the kernel. -/
def popcFuel : Nat → Nat → Nat
  | 0, _ => 0
  | fuel + 1, b => if b = 0 then 0 else b % 2 + popcFuel fuel (b / 2)

/-- Mathematical population count (number of set bits) of a natural
number. -/
def popc (b : Nat) : Nat := popcFuel b b

/-- The value of the `uint8_t bitsSet` accumulator after the
`for (p = 14; p < msgSize; p++)` checksum loop of
`decodeBresser5In1Payload`. -/
def bitsSetAccum (msg : List Nat) (msgSize : Nat) : Nat :=
  (List.range' 14 (msgSize - 14)).foldl (fun acc p => addPopcWrap acc (msg.getD p 0)) 0

/-- The exact mathematical count of set bits over payload bytes
14..25 (the checksum region of a 26-byte payload). -/
def popcountRange (msg : List Nat) : Nat :=
  ((List.range' 14 12).map (fun p => popc (msg.getD p 0))).sum

/-- `decodeBresser5In1Payload(msg, msgSize, pOut)`.  The message is a
list of bytes; out-of-range accesses default to 0 (they never occur at
the call site, which passes 26 payload bytes).  The out-parameter
`pOut` is threaded explicitly: the function returns the status
together with the final contents of `*pOut`. -/
def decodeBresser5In1Payload (msg : List Nat) (msgSize : Nat) (pOut : WeatherData) :
    DecodeStatus × WeatherData :=
  match (List.range (msgSize / 2)).find?
      (fun col => (msg.getD col 0) ^^^ (msg.getD (col + 13) 0) != 0xff) with
  | some col => (DecodeStatus.parErr col, pOut)
  | none =>
    let bitsSet := bitsSetAccum msg msgSize
    let expectedBitsSet := msg.getD 13 0
    if bitsSet ≠ expectedBitsSet then
      (DecodeStatus.chkErr bitsSet expectedBitsSet, pOut)
    else
      let temp_mag : Nat :=
        (msg.getD 20 0 &&& 0x0f) + ((msg.getD 20 0 &&& 0xf0) >>> 4) * 10 +
          (msg.getD 21 0 &&& 0x0f) * 100
      let temp_raw : Int :=
        if msg.getD 25 0 &&& 0x0f ≠ 0 then -(temp_mag : Int) else (temp_mag : Int)
      let gust_raw : Nat := ((msg.getD 17 0 &&& 0x0f) <<< 8) + msg.getD 16 0
      let wind_raw : Nat :=
        (msg.getD 18 0 &&& 0x0f) + ((msg.getD 18 0 &&& 0xf0) >>> 4) * 10 +
          (msg.getD 19 0 &&& 0x0f) * 100
      let rain_raw : Nat :=
        (msg.getD 23 0 &&& 0x0f) + ((msg.getD 23 0 &&& 0xf0) >>> 4) * 10 +
          (msg.getD 24 0 &&& 0x0f) * 100
      (DecodeStatus.ok,
       { pOut with
         sensor_id := msg.getD 14 0
         temp_c := (temp_raw : ℚ) * (1 / 10)
         humidity := (msg.getD 22 0 &&& 0x0f) + ((msg.getD 22 0 &&& 0xf0) >>> 4) * 10
         wind_direction_deg := (((msg.getD 17 0 &&& 0xf0) >>> 4 : Nat) : ℚ) * 22.5
         wind_gust_meter_sec := (gust_raw : ℚ) * (1 / 10)
         wind_avg_meter_sec := (wind_raw : ℚ) * (1 / 10)
         rain_mm := (rain_raw : ℚ) * (1 / 10)
         battery_ok := if msg.getD 25 0 &&& 0x80 ≠ 0 then false else true })

/-- The relevant fields of `struct tm` (seconds, minutes, hours, day
of month starting at 1, month 0..11, years since 1900), as populated
by `getLocalTime` and consumed by `assembleTargetTime`. -/
structure Tm where
  tm_sec : Nat
  tm_min : Nat
  tm_hour : Nat
  tm_mday : Nat
  tm_mon : Nat
  tm_year : Nat
deriving DecidableEq

/-- Gregorian leap-year test for a `tm_year` value (years since
1900), as used by the C library calendar. -/
def isLeap (tm_year : Nat) : Bool :=
  let y := 1900 + tm_year
  (y % 4 == 0) && (y % 100 != 0 || y % 400 == 0)

/-- Length in days of month `tm_mon` (0 = January .. 11 = December)
of year `tm_year` (since 1900). -/
def daysInMonth (tm_year tm_mon : Nat) : Nat :=
  if tm_mon = 1 then (if isLeap tm_year then 29 else 28)
  else if tm_mon = 3 ∨ tm_mon = 5 ∨ tm_mon = 8 ∨ tm_mon = 10 then 30
  else 31

/-- Day-of-month overflow normalization: while the day exceeds the
length of the current month, subtract that length and advance the
month (wrapping December into January of the next year).  Structural
recursion on a fuel argument that starts at the day value; the day
strictly decreases by at least 28 each step, so the fuel suffices. -/
def normDateFuel : Nat → Nat → Nat → Nat → Nat × Nat × Nat
  | 0, y, m, d => (y, m, d)
  | fuel + 1, y, m, d =>
    if daysInMonth y m < d then
      if m = 11 then normDateFuel fuel (y + 1) 0 (d - 31)
      else normDateFuel fuel y (m + 1) (d - daysInMonth y m)
    else (y, m, d)

/-- Models the C library `mktime` calendar normalization for the
field ranges this program produces (seconds already zeroed, minutes
possibly ≥ 60 after the caller adds an offset, month within 0..11):
carry excess minutes into hours, excess hours into days, and excess
days through the month lengths of the Gregorian calendar. -/
def mktimeNorm (t : Tm) : Tm :=
  let minute := t.tm_min % 60
  let hourTotal := t.tm_hour + t.tm_min / 60
  let hour := hourTotal % 24
  let mday := t.tm_mday + hourTotal / 24
  let ymd := normDateFuel mday t.tm_year t.tm_mon mday
  { tm_sec := t.tm_sec, tm_min := minute, tm_hour := hour,
    tm_mday := ymd.2.2, tm_mon := ymd.2.1, tm_year := ymd.1 }

/-- `assembleTargetTime(timeinfo, minutesToAdd)`: zero the seconds,
add the minute offset, normalize with `mktime`, then pack
(year-within-century, month, day, hour, minute) as five two-decimal-
digit groups of a `uint64_t`. -/
def assembleTargetTime (timeinfo : Tm) (minutesToAdd : Nat) : Nat :=
  let outputTime :=
    mktimeNorm { timeinfo with tm_sec := 0, tm_min := timeinfo.tm_min + minutesToAdd }
  (((((outputTime.tm_year - 100) * 100 + (outputTime.tm_mon + 1)) * 100 +
        outputTime.tm_mday) * 100 + outputTime.tm_hour) * 100 +
      outputTime.tm_min) % 2 ^ 64

/-- A `struct tm` holding an in-range calendar time of the century
2000..2099 (the range over which the digit packing is injective). -/
def validTm (t : Tm) : Prop :=
  t.tm_sec ≤ 59 ∧ t.tm_min ≤ 59 ∧ t.tm_hour ≤ 23 ∧
  1 ≤ t.tm_mday ∧ t.tm_mday ≤ daysInMonth t.tm_year t.tm_mon ∧
  t.tm_mon ≤ 11 ∧ 100 ≤ t.tm_year ∧ t.tm_year ≤ 199

instance (t : Tm) : Decidable (validTm t) := by
  unfold validTm; infer_instance

/-- Chronological order of two calendar times at minute granularity:
lexicographic on (year, month, day, hour, minute). -/
def chronLt (t1 t2 : Tm) : Prop :=
  t1.tm_year < t2.tm_year ∨ (t1.tm_year = t2.tm_year ∧
    (t1.tm_mon < t2.tm_mon ∨ (t1.tm_mon = t2.tm_mon ∧
      (t1.tm_mday < t2.tm_mday ∨ (t1.tm_mday = t2.tm_mday ∧
        (t1.tm_hour < t2.tm_hour ∨ (t1.tm_hour = t2.tm_hour ∧
          t1.tm_min < t2.tm_min)))))))

instance (t1 t2 : Tm) : Decidable (chronLt t1 t2) := by
  unfold chronLt; infer_instance

/-- The `SamplingState` enum. -/
inductive SamplingState where
  | INITIAL_WIFI_CONNECTION
  | REINIT_WIFI_CONNECTION
  | AWAIT_TIME_SLOT
  | CAPTURE_WEATHER_DATA
  | SEND_WEATHER_DATA
  | SLEEP_UNTIL_TIME_SLOT
deriving DecidableEq

/-- Outcome of `radio.receive` as branched on in `capture`:
`RADIOLIB_ERR_NONE`, `RADIOLIB_ERR_RX_TIMEOUT`, or any other code. -/
inductive RadioResult where
  | ok
  | timeout
  | err (code : Int)
deriving DecidableEq

/-- The external-collaborator inputs one `loop` tick can observe:
WiFi poll result, local calendar time, epoch seconds from `getTime`,
radio receive outcome and the 27 received bytes, pressure-sensor
availability and reading, upload-token readiness, and the per-
iteration success of `appendRowToSheet` during the upload loop. -/
structure Env where
  wifiConnected : Bool
  localTime : Option Tm
  epochTime : Nat
  radioState : RadioResult
  recvData : List Nat
  pressureAvailable : Bool
  pressureHpa : ℚ
  tokenReady : Bool
  uploadOk : Nat → Bool

/-- The mutable state `loop` reads and writes: the file-scope
statics (`samplingState`, `wifiReinitAttempts`, `targetWakeTime`,
`lightSlept`) together with the external durable weather-data buffer,
modelled as the queue of its entries. -/
structure World where
  samplingState : SamplingState
  wifiReinitAttempts : Int
  targetWakeTime : Nat
  lightSlept : Bool
  buffer : List WeatherData

/-- Externally visible actions of one tick other than state/buffer
updates: a requested timed light sleep (in microseconds) and a WiFi
disconnect. -/
structure Effects where
  sleepMicros : Option Nat
  disconnectedWifi : Bool
deriving DecidableEq

def noEffects : Effects := { sleepMicros := none, disconnectedWifi := false }

def sleepTimeMinutes : Nat := 10

/-- `capture()`: on a successful receive whose first byte is the
trailing sync byte 0xD4, decode the remaining 26 bytes into a
zero-initialized `WeatherData`; on `DECODE_OK`, optionally fill the
pressure from the external sensor and append the entry to the
durable buffer.  Every other path returns `false` and leaves the
buffer untouched. -/
def capture (env : Env) (buffer : List WeatherData) : Bool × List WeatherData :=
  match env.radioState with
  | RadioResult.ok =>
    if env.recvData.getD 0 0 = 0xD4 then
      match decodeBresser5In1Payload (env.recvData.drop 1) 26 zeroWeatherData with
      | (DecodeStatus.ok, weatherData) =>
        let weatherData :=
          if env.pressureAvailable then { weatherData with pressure := env.pressureHpa }
          else weatherData
        (true, buffer ++ [weatherData])
      | _ => (false, buffer)
    else (false, buffer)
  | _ => (false, buffer)

/-- `emitBufferedDataEntry()` at upload-success granularity: peek the
front buffer entry (fails on an empty buffer); if the row upload
succeeds, confirm the peek (removing the entry), otherwise leave the
buffer unchanged. -/
def emitBufferedDataEntry (uploadOk : Bool) (buffer : List WeatherData) :
    Bool × List WeatherData :=
  match buffer with
  | [] => (false, [])
  | entry :: rest => if uploadOk then (true, rest) else (false, entry :: rest)

/-- The upload loop of `send`:
`for (i = 0; i < 20 && getTotalWeatherDataEntries() > 0; i++)`,
OR-accumulating the per-entry success flag. -/
def sendLoop (uploadOk : Nat → Bool) : Nat → Nat → Bool → List WeatherData →
    Bool × List WeatherData
  | 0, _, sent, buffer => (sent, buffer)
  | fuel + 1, i, sent, buffer =>
    if buffer.length > 0 then
      let r := emitBufferedDataEntry (uploadOk i) buffer
      sendLoop uploadOk fuel (i + 1) (sent || r.1) r.2
    else (sent, buffer)

/-- `send()`: if the WiFi retry loop never sees a connection, give up
with nothing uploaded; likewise if the access token never becomes
ready; otherwise run the 20-iteration upload loop. -/
def send (env : Env) (buffer : List WeatherData) : Bool × List WeatherData :=
  if env.wifiConnected then
    if env.tokenReady then sendLoop env.uploadOk 20 0 false buffer
    else (false, buffer)
  else (false, buffer)

/-- One invocation of `loop()`: dispatch on `samplingState` and
perform the work of that state, returning the updated state/buffer
and the externally visible effects of the tick. -/
def loopStep (w : World) (env : Env) : World × Effects :=
  match w.samplingState with
  | SamplingState.INITIAL_WIFI_CONNECTION =>
    if env.wifiConnected then
      ({ w with samplingState := SamplingState.SLEEP_UNTIL_TIME_SLOT }, noEffects)
    else (w, noEffects)
  | SamplingState.REINIT_WIFI_CONNECTION =>
    if env.wifiConnected then
      ({ w with samplingState := SamplingState.CAPTURE_WEATHER_DATA,
                lightSlept := false }, noEffects)
    else if w.wifiReinitAttempts < 40 then
      ({ w with wifiReinitAttempts := w.wifiReinitAttempts + 1 }, noEffects)
    else if 24 * 60 * 60 * 21 ≤ env.epochTime then
      ({ w with samplingState := SamplingState.AWAIT_TIME_SLOT }, noEffects)
    else
      ({ w with samplingState := SamplingState.SLEEP_UNTIL_TIME_SLOT }, noEffects)
  | SamplingState.AWAIT_TIME_SLOT =>
    match env.localTime with
    | none => (w, noEffects)
    | some timeinfo =>
      if w.targetWakeTime ≤ assembleTargetTime timeinfo 0 then
        ({ w with samplingState := SamplingState.CAPTURE_WEATHER_DATA }, noEffects)
      else (w, noEffects)
  | SamplingState.CAPTURE_WEATHER_DATA =>
    let r := capture env w.buffer
    if r.1 then
      ({ w with samplingState := SamplingState.SEND_WEATHER_DATA, buffer := r.2 },
       noEffects)
    else ({ w with buffer := r.2 }, noEffects)
  | SamplingState.SEND_WEATHER_DATA =>
    let r := send env w.buffer
    ({ w with samplingState := SamplingState.SLEEP_UNTIL_TIME_SLOT, buffer := r.2 },
     noEffects)
  | SamplingState.SLEEP_UNTIL_TIME_SLOT =>
    match env.localTime with
    | none => (w, noEffects)
    | some timeinfo =>
      let minutesToWait := sleepTimeMinutes - timeinfo.tm_min % sleepTimeMinutes
      let secondsToWait := minutesToWait * 60 - timeinfo.tm_sec
      let w1 := { w with targetWakeTime := assembleTargetTime timeinfo minutesToWait }
      if 30 ≤ secondsToWait then
        ({ w1 with samplingState := SamplingState.REINIT_WIFI_CONNECTION,
                   wifiReinitAttempts := 0, lightSlept := true },
         { sleepMicros := some (secondsToWait * 1000000), disconnectedWifi := true })
      else
        ({ w1 with samplingState := SamplingState.AWAIT_TIME_SLOT }, noEffects)

/-- The example payload from the source comment block:
EA EC 7F EB 5F EE EF FA FE 76 BB FA FF 15 13 80 14 A0 11 10 05 01 89 44 05 00. -/
def exampleFrame : List Nat :=
  [0xEA, 0xEC, 0x7F, 0xEB, 0x5F, 0xEE, 0xEF, 0xFA, 0xFE, 0x76, 0xBB, 0xFA, 0xFF,
   0x15, 0x13, 0x80, 0x14, 0xA0, 0x11, 0x10, 0x05, 0x01, 0x89, 0x44, 0x05, 0x00]

/-- An all-zero payload: parity fails already at offset 0. -/
def frameAllZero : List Nat := List.replicate 26 0

/-- The example payload with byte 1 set to 0xFF and byte 14 set to
0x00: parity still holds pairwise, but the set-bit count over bytes
14..25 drops to 18 while byte 13 still claims 21. -/
def frameBadChecksum : List Nat :=
  [0xEA, 0xFF, 0x7F, 0xEB, 0x5F, 0xEE, 0xEF, 0xFA, 0xFE, 0x76, 0xBB, 0xFA, 0xFF,
   0x15, 0x00, 0x80, 0x14, 0xA0, 0x11, 0x10, 0x05, 0x01, 0x89, 0x44, 0x05, 0x00]

/-- 2022-06-14 23:55:00 local time as a `struct tm`. -/
def tm2355 : Tm :=
  { tm_sec := 0, tm_min := 55, tm_hour := 23, tm_mday := 14, tm_mon := 5, tm_year := 122 }

/-- 2022-06-15 00:05:00 local time: ten minutes after `tm2355`. -/
def tmNextDay : Tm :=
  { tm_sec := 0, tm_min := 5, tm_hour := 0, tm_mday := 15, tm_mon := 5, tm_year := 122 }

/-- 2022-06-30 23:55:00 local time: ten minutes before a month
boundary. -/
def tmJun30 : Tm :=
  { tm_sec := 0, tm_min := 55, tm_hour := 23, tm_mday := 30, tm_mon := 5, tm_year := 122 }

/-- 2023-04-10 12:04:45: 315 seconds before the next 10-minute
boundary. -/
def tmSleepLong : Tm :=
  { tm_sec := 45, tm_min := 4, tm_hour := 12, tm_mday := 10, tm_mon := 3, tm_year := 123 }

/-- 2023-04-10 12:09:40: 20 seconds before the next 10-minute
boundary. -/
def tmSleepShort : Tm :=
  { tm_sec := 40, tm_min := 9, tm_hour := 12, tm_mday := 10, tm_mon := 3, tm_year := 123 }

/-- A quiescent environment: no WiFi, no time, radio timed out,
nothing available. -/
def envIdle : Env :=
  { wifiConnected := false, localTime := none, epochTime := 0,
    radioState := RadioResult.timeout, recvData := [], pressureAvailable := false,
    pressureHpa := 0, tokenReady := false, uploadOk := fun _ => false }

/-- A world in the reset state of the statics. -/
def worldBase : World :=
  { samplingState := SamplingState.INITIAL_WIFI_CONNECTION, wifiReinitAttempts := 0,
    targetWakeTime := 0, lightSlept := false, buffer := [] }

def wSleep : World := { worldBase with samplingState := SamplingState.SLEEP_UNTIL_TIME_SLOT }

def envSleepLong : Env := { envIdle with localTime := some tmSleepLong }

def envSleepShort : Env := { envIdle with localTime := some tmSleepShort }

def wReinit5 : World :=
  { worldBase with samplingState := SamplingState.REINIT_WIFI_CONNECTION,
                   wifiReinitAttempts := 5 }

def wReinit40 : World :=
  { worldBase with samplingState := SamplingState.REINIT_WIFI_CONNECTION,
                   wifiReinitAttempts := 40 }

def envNoWifiSynced : Env := { envIdle with epochTime := 24 * 60 * 60 * 21 }

def wCapture : World := { worldBase with samplingState := SamplingState.CAPTURE_WEATHER_DATA }

def envGoodFrame : Env :=
  { envIdle with radioState := RadioResult.ok, recvData := 0xD4 :: exampleFrame }

def envBadFrame : Env :=
  { envIdle with radioState := RadioResult.ok, recvData := 0xD4 :: frameAllZero }

def envWrongSync : Env :=
  { envIdle with radioState := RadioResult.ok, recvData := List.replicate 27 0 }

def wSend : World :=
  { worldBase with samplingState := SamplingState.SEND_WEATHER_DATA,
                   buffer := [zeroWeatherData] }

def envUploadFail : Env :=
  { envIdle with wifiConnected := true, tokenReady := true, uploadOk := fun _ => false }

theorem popcFuel_congr (b : Nat) : ∀ f1 f2, b ≤ f1 → b ≤ f2 → popcFuel f1 b = popcFuel f2 b := by
  induction b using Nat.strong_induction_on with
  | _ b ih =>
    intro f1 f2 h1 h2
    by_cases hb : b = 0
    · subst hb
      cases f1 <;> cases f2 <;> simp [popcFuel]
    · obtain ⟨g1, rfl⟩ : ∃ g, f1 = g + 1 := ⟨f1 - 1, by omega⟩
      obtain ⟨g2, rfl⟩ : ∃ g, f2 = g + 1 := ⟨f2 - 1, by omega⟩
      simp only [popcFuel, if_neg hb]
      have hrec := ih (b / 2) (by omega) g1 g2 (by omega) (by omega)
      omega

theorem popc_rec (b : Nat) (hb : b ≠ 0) : popc b = b % 2 + popc (b / 2) := by
  unfold popc
  obtain ⟨g, rfl⟩ : ∃ g, b = g + 1 := ⟨b - 1, by omega⟩
  simp only [popcFuel, if_neg hb]
  have := popcFuel_congr ((g + 1) / 2) g ((g + 1) / 2) (by omega) (by omega)
  omega

theorem addPopcWrapFuel_eq (b : Nat) :
    ∀ fuel acc, b ≤ fuel → acc < 256 → addPopcWrapFuel fuel acc b = (acc + popc b) % 256 := by
  induction b using Nat.strong_induction_on with
  | _ b ih =>
    intro fuel acc hf hacc
    by_cases hb : b = 0
    · subst hb
      have hp : popc 0 = 0 := rfl
      cases fuel <;> simp [addPopcWrapFuel, hp, Nat.mod_eq_of_lt hacc]
    · obtain ⟨g, rfl⟩ : ∃ g, fuel = g + 1 := ⟨fuel - 1, by omega⟩
      simp only [addPopcWrapFuel, if_neg hb]
      rw [ih (b / 2) (by omega) g ((acc + b % 2) % 256) (by omega)
            (Nat.mod_lt _ (by omega)),
          popc_rec b hb]
      omega

theorem addPopcWrap_eq (acc b : Nat) (hacc : acc < 256) :
    addPopcWrap acc b = (acc + popc b) % 256 :=
  addPopcWrapFuel_eq b b acc le_rfl hacc

theorem foldl_addPopcWrap (f : Nat → Nat) :
    ∀ (ps : List Nat) (acc : Nat), acc < 256 →
      ps.foldl (fun a p => addPopcWrap a (f p)) acc =
        (acc + (ps.map (fun p => popc (f p))).sum) % 256 := by
  intro ps
  induction ps with
  | nil => intro acc hacc; simp [Nat.mod_eq_of_lt hacc]
  | cons p ps ih =>
    intro acc hacc
    simp only [List.foldl_cons, List.map_cons, List.sum_cons]
    rw [addPopcWrap_eq _ _ hacc, ih _ (Nat.mod_lt _ (by omega)), Nat.mod_add_mod]
    omega

theorem popc_le_eight : ∀ b < 256, popc b ≤ 8 := by decide

theorem getD_lt_256 (msg : List Nat) (hlen : msg.length = 26)
    (hbytes : ∀ b ∈ msg, b < 256) : ∀ i, i < 26 → msg.getD i 0 < 256 := by
  intro i hi
  have hi' : i < msg.length := by omega
  rw [List.getD_eq_getElem msg 0 hi']
  exact hbytes _ (List.getElem_mem hi')

theorem popcountRange_le_96 (msg : List Nat)
    (hb : ∀ i, i < 26 → msg.getD i 0 < 256) : popcountRange msg ≤ 96 := by
  have hr : List.range' 14 12 = [14, 15, 16, 17, 18, 19, 20, 21, 22, 23, 24, 25] := by
    decide
  unfold popcountRange
  rw [hr]
  simp only [List.map_cons, List.map_nil, List.sum_cons, List.sum_nil]
  have h14 := popc_le_eight _ (hb 14 (by omega))
  have h15 := popc_le_eight _ (hb 15 (by omega))
  have h16 := popc_le_eight _ (hb 16 (by omega))
  have h17 := popc_le_eight _ (hb 17 (by omega))
  have h18 := popc_le_eight _ (hb 18 (by omega))
  have h19 := popc_le_eight _ (hb 19 (by omega))
  have h20 := popc_le_eight _ (hb 20 (by omega))
  have h21 := popc_le_eight _ (hb 21 (by omega))
  have h22 := popc_le_eight _ (hb 22 (by omega))
  have h23 := popc_le_eight _ (hb 23 (by omega))
  have h24 := popc_le_eight _ (hb 24 (by omega))
  have h25 := popc_le_eight _ (hb 25 (by omega))
  omega

theorem bitsSetAccum_eq_popcountRange (msg : List Nat)
    (hb : ∀ i, i < 26 → msg.getD i 0 < 256) :
    bitsSetAccum msg 26 = popcountRange msg := by
  unfold bitsSetAccum
  have h26 : (26 : Nat) - 14 = 12 := by omega
  rw [h26, foldl_addPopcWrap (fun p => msg.getD p 0) _ 0 (by omega)]
  have hle := popcountRange_le_96 msg hb
  unfold popcountRange at hle ⊢
  omega

theorem daysInMonth_bounds (y m : Nat) : 28 ≤ daysInMonth y m ∧ daysInMonth y m ≤ 31 := by
  unfold daysInMonth
  split
  · split <;> omega
  · split <;> omega

theorem normDateFuel_stop (fuel y m d : Nat) (h : d ≤ daysInMonth y m) :
    normDateFuel fuel y m d = (y, m, d) := by
  cases fuel with
  | zero => rfl
  | succ g =>
    simp only [normDateFuel]
    rw [if_neg (show ¬ daysInMonth y m < d by omega)]

theorem assembleTargetTime_valid (t : Tm) (h : validTm t) :
    assembleTargetTime t 0 =
      (t.tm_year - 100) * 100000000 + (t.tm_mon + 1) * 1000000 +
        t.tm_mday * 10000 + t.tm_hour * 100 + t.tm_min := by
  obtain ⟨hs, hmin, hh, hd1, hd2, hm, hy1, hy2⟩ := h
  unfold assembleTargetTime mktimeNorm
  simp only [Nat.add_zero]
  rw [Nat.mod_eq_of_lt (show t.tm_min < 60 by omega),
      Nat.div_eq_of_lt (show t.tm_min < 60 by omega)]
  simp only [Nat.add_zero]
  rw [Nat.mod_eq_of_lt (show t.tm_hour < 24 by omega),
      Nat.div_eq_of_lt (show t.tm_hour < 24 by omega)]
  simp only [Nat.add_zero]
  rw [normDateFuel_stop _ _ _ _ hd2]
  simp only []
  have hdm := daysInMonth_bounds t.tm_year t.tm_mon
  have h64 : (2 : Nat) ^ 64 = 18446744073709551616 := by norm_num
  rw [Nat.mod_eq_of_lt (by omega)]
  omega

theorem find?_range'_eq_some (p : Nat → Bool) :
    ∀ n s i, s ≤ i → i < s + n → p i = true → (∀ j, s ≤ j → j < i → p j = false) →
      (List.range' s n).find? p = some i := by
  intro n
  induction n with
  | zero => intro s i h1 h2; omega
  | succ n ih =>
    intro s i h1 h2 hp hmin
    rw [List.range'_succ]
    by_cases hsi : i = s
    · subst hsi
      rw [List.find?_cons_of_pos _ hp]
    · have hps : p s = false := hmin s le_rfl (by omega)
      rw [List.find?_cons_of_neg _ (by simp [hps])]
      exact ih (s + 1) i (by omega) (by omega) hp (fun j hj1 hj2 => hmin j (by omega) hj2)

theorem sendLoop_drop (uploadOk : Nat → Bool) :
    ∀ fuel i sent buffer, ∃ k,
      k ≤ fuel ∧ (sendLoop uploadOk fuel i sent buffer).2 = buffer.drop k ∧
      ((∀ j, i ≤ j → j < i + fuel → uploadOk j = false) →
        (sendLoop uploadOk fuel i sent buffer).2 = buffer) := by
  intro fuel
  induction fuel with
  | zero =>
    intro i sent buffer
    exact ⟨0, le_rfl, rfl, fun _ => rfl⟩
  | succ fuel ih =>
    intro i sent buffer
    match buffer with
    | [] =>
      refine ⟨0, by omega, ?_, fun _ => ?_⟩ <;>
        simp [sendLoop]
    | entry :: rest =>
      by_cases hu : uploadOk i = true
      · obtain ⟨k, hk, hdrop, _⟩ := ih (i + 1) (sent || true) rest
        refine ⟨k + 1, by omega, ?_, ?_⟩
        · simp only [sendLoop, emitBufferedDataEntry, List.length_cons, if_pos hu,
            Nat.succ_sub_one, gt_iff_lt, Nat.zero_lt_succ, if_true, List.drop_succ_cons]
          exact hdrop
        · intro hall
          have := hall i le_rfl (by omega)
          rw [hu] at this
          exact absurd this (by simp)
      · have hu' : uploadOk i = false := by
          cases h : uploadOk i
          · rfl
          · exact absurd h hu
        obtain ⟨k, hk, hdrop, hall⟩ := ih (i + 1) (sent || false) (entry :: rest)
        refine ⟨k, by omega, ?_, ?_⟩
        · simp only [sendLoop, emitBufferedDataEntry, List.length_cons, if_neg hu,
            gt_iff_lt, Nat.zero_lt_succ, if_true]
          exact hdrop
        · intro hcond
          simp only [sendLoop, emitBufferedDataEntry, List.length_cons, if_neg hu,
            gt_iff_lt, Nat.zero_lt_succ, if_true]
          exact hall (fun j hj1 hj2 => hcond j (by omega) (by omega))

theorem shiftLeft_or_eq_add :
    ∀ a < 16, ∀ b < 256, ((a <<< 8) ||| b) = (a <<< 8) + b := by decide

/-- C9: on every 26-byte payload the 8-bit set-bit accumulator of the
checksum loop computes the exact mathematical popcount of bytes
14..25; that count is at most 96, so the mod-256 accumulator never
wraps, and the checksum comparison against byte 13 is exact popcount
equality. -/
theorem checksum_accumulator_exact (msg : List Nat) (hlen : msg.length = 26)
    (hbytes : ∀ b ∈ msg, b < 256) :
    bitsSetAccum msg 26 = popcountRange msg ∧ popcountRange msg ≤ 96 ∧
      (bitsSetAccum msg 26 = msg.getD 13 0 ↔ popcountRange msg = msg.getD 13 0) := by
  have hb := getD_lt_256 msg hlen hbytes
  have h1 := bitsSetAccum_eq_popcountRange msg hb
  exact ⟨h1, popcountRange_le_96 msg hb, by rw [h1]⟩

theorem checksum_accumulator_exact_witness :
    bitsSetAccum exampleFrame 26 = popcountRange exampleFrame ∧
    popcountRange exampleFrame ≤ 96 ∧
      (bitsSetAccum exampleFrame 26 = exampleFrame.getD 13 0 ↔
        popcountRange exampleFrame = exampleFrame.getD 13 0) :=
  checksum_accumulator_exact exampleFrame (by decide) (by decide)

/-- C3: on any 26-byte payload on which decode fails (parity or
checksum), the out-parameter `WeatherData` is returned exactly as it
was before the call, and the pressure field is never written by
decode even on success. -/
theorem decode_failure_writes_nothing (msg : List Nat) (pOut : WeatherData) :
    ((decodeBresser5In1Payload msg 26 pOut).1 ≠ DecodeStatus.ok →
      (decodeBresser5In1Payload msg 26 pOut).2 = pOut) ∧
    (decodeBresser5In1Payload msg 26 pOut).2.pressure = pOut.pressure := by
  cases hf : (List.range (26 / 2)).find?
      (fun col => (msg.getD col 0) ^^^ (msg.getD (col + 13) 0) != 0xff) with
  | some col =>
    simp only [decodeBresser5In1Payload, hf]
    simp
  | none =>
    simp only [decodeBresser5In1Payload, hf]
    by_cases hc : bitsSetAccum msg 26 = msg.getD 13 0
    · rw [if_neg (not_not_intro hc)]
      simp
    · rw [if_pos hc]
      simp

theorem decode_failure_writes_nothing_witness :
    (decodeBresser5In1Payload frameAllZero 26 zeroWeatherData).2 = zeroWeatherData ∧
    (decodeBresser5In1Payload frameAllZero 26 zeroWeatherData).2.pressure =
      zeroWeatherData.pressure :=
  ⟨(decode_failure_writes_nothing frameAllZero zeroWeatherData).1 (by decide),
   (decode_failure_writes_nothing frameAllZero zeroWeatherData).2⟩

/-- C10: when the radio receive succeeds but byte 0 of the 27-byte
raw frame is not the trailing sync byte 0xD4, `capture` returns
false and appends nothing to the history buffer, whatever the other
26 bytes hold — the sync byte gates decoding. -/
theorem capture_sync_gate (env : Env) (buffer : List WeatherData)
    (hr : env.radioState = RadioResult.ok)
    (hsync : env.recvData.getD 0 0 ≠ 0xD4) :
    capture env buffer = (false, buffer) := by
  unfold capture
  rw [hr]
  exact if_neg hsync

theorem capture_sync_gate_witness : capture envWrongSync [] = (false, []) :=
  capture_sync_gate envWrongSync [] rfl (by decide)

/-- C1: every 26-byte payload whose first 13 bytes are the bitwise
complements of the following 13 and whose set-bit count over bytes
14..25 equals byte 13 decodes to Ok with exactly the fields of the
specified byte/nibble map (sensor id, wind gust, wind direction, wind
average, temperature with sign nibble, humidity, rainfall, battery
flag), leaving pressure untouched. -/
theorem decode_valid_frame_ok (msg : List Nat) (pOut : WeatherData)
    (hlen : msg.length = 26) (hbytes : ∀ b ∈ msg, b < 256)
    (hpar : ∀ i, i < 13 → (msg.getD i 0) ^^^ (msg.getD (i + 13) 0) = 0xff)
    (hchk : popcountRange msg = msg.getD 13 0) :
    decodeBresser5In1Payload msg 26 pOut =
      (DecodeStatus.ok,
       { sensor_id := msg.getD 14 0
         temp_c :=
           ((if msg.getD 25 0 &&& 0x0f ≠ 0 then
               -(((msg.getD 20 0 &&& 0x0f) + ((msg.getD 20 0 &&& 0xf0) >>> 4) * 10 +
                   (msg.getD 21 0 &&& 0x0f) * 100 : Nat) : Int)
             else
               (((msg.getD 20 0 &&& 0x0f) + ((msg.getD 20 0 &&& 0xf0) >>> 4) * 10 +
                   (msg.getD 21 0 &&& 0x0f) * 100 : Nat) : Int)) : ℚ) * (1 / 10)
         humidity := (msg.getD 22 0 &&& 0x0f) + ((msg.getD 22 0 &&& 0xf0) >>> 4) * 10
         wind_direction_deg := (((msg.getD 17 0 &&& 0xf0) >>> 4 : Nat) : ℚ) * 22.5
         wind_gust_meter_sec :=
           ((((msg.getD 17 0 &&& 0x0f) <<< 8) ||| msg.getD 16 0 : Nat) : ℚ) * (1 / 10)
         wind_avg_meter_sec :=
           (((msg.getD 18 0 &&& 0x0f) + ((msg.getD 18 0 &&& 0xf0) >>> 4) * 10 +
               (msg.getD 19 0 &&& 0x0f) * 100 : Nat) : ℚ) * (1 / 10)
         rain_mm :=
           (((msg.getD 23 0 &&& 0x0f) + ((msg.getD 23 0 &&& 0xf0) >>> 4) * 10 +
               (msg.getD 24 0 &&& 0x0f) * 100 : Nat) : ℚ) * (1 / 10)
         battery_ok := decide (msg.getD 25 0 &&& 0x80 = 0)
         pressure := pOut.pressure }) := by
  have hb := getD_lt_256 msg hlen hbytes
  have hf : (List.range (26 / 2)).find?
      (fun col => (msg.getD col 0) ^^^ (msg.getD (col + 13) 0) != 0xff) = none := by
    rw [List.find?_eq_none]
    intro i hi
    rw [List.mem_range] at hi
    have hi13 : i < 13 := by omega
    simpa using hpar i hi13
  have hbs : bitsSetAccum msg 26 = msg.getD 13 0 := by
    rw [bitsSetAccum_eq_popcountRange msg hb, hchk]
  have hgust : (((msg.getD 17 0 &&& 0x0f) <<< 8) ||| msg.getD 16 0)
      = ((msg.getD 17 0 &&& 0x0f) <<< 8) + msg.getD 16 0 :=
    shiftLeft_or_eq_add _ (lt_of_le_of_lt Nat.and_le_right (by norm_num)) _
      (hb 16 (by omega))
  simp only [decodeBresser5In1Payload, hf]
  rw [if_neg (not_not_intro hbs), hgust]
  by_cases h25 : msg.getD 25 0 &&& 0x80 = 0
  · simp [h25]
  · simp [h25]

theorem decode_valid_frame_ok_witness :
    (decodeBresser5In1Payload exampleFrame 26 zeroWeatherData).1 = DecodeStatus.ok := by
  rw [decode_valid_frame_ok exampleFrame zeroWeatherData (by decide) (by decide)
        (by decide) (by decide)]

/-- C2: decode validates in order and fails fast — a payload with a
parity mismatch yields a parity error carrying the smallest failing
offset, with no checksum condition involved; a payload that passes
parity but fails the set-bit checksum yields a checksum error
carrying the computed count and the expected byte 13. -/
theorem decode_error_reporting :
    (∀ (msg : List Nat) (pOut : WeatherData) (i : Nat), i < 13 →
        (msg.getD i 0) ^^^ (msg.getD (i + 13) 0) ≠ 0xff →
        (∀ j, j < i → (msg.getD j 0) ^^^ (msg.getD (j + 13) 0) = 0xff) →
        (decodeBresser5In1Payload msg 26 pOut).1 = DecodeStatus.parErr i) ∧
    (∀ (msg : List Nat) (pOut : WeatherData), msg.length = 26 →
        (∀ b ∈ msg, b < 256) →
        (∀ i, i < 13 → (msg.getD i 0) ^^^ (msg.getD (i + 13) 0) = 0xff) →
        popcountRange msg ≠ msg.getD 13 0 →
        (decodeBresser5In1Payload msg 26 pOut).1 =
          DecodeStatus.chkErr (popcountRange msg) (msg.getD 13 0)) := by
  constructor
  · intro msg pOut i hi hne hmin
    have hf : (List.range (26 / 2)).find?
        (fun col => (msg.getD col 0) ^^^ (msg.getD (col + 13) 0) != 0xff) = some i := by
      rw [List.range_eq_range']
      apply find?_range'_eq_some _ _ _ i (by omega) (by omega)
      · simpa using hne
      · intro j hj1 hj2
        simpa using hmin j hj2
    simp only [decodeBresser5In1Payload, hf]
  · intro msg pOut hlen hbytes hpar hne
    have hb := getD_lt_256 msg hlen hbytes
    have hf : (List.range (26 / 2)).find?
        (fun col => (msg.getD col 0) ^^^ (msg.getD (col + 13) 0) != 0xff) = none := by
      rw [List.find?_eq_none]
      intro j hj
      rw [List.mem_range] at hj
      have hj13 : j < 13 := by omega
      simpa using hpar j hj13
    have hbs : bitsSetAccum msg 26 = popcountRange msg :=
      bitsSetAccum_eq_popcountRange msg hb
    simp only [decodeBresser5In1Payload, hf, hbs]
    rw [if_pos hne]

theorem decode_error_reporting_witness :
    (decodeBresser5In1Payload frameAllZero 26 zeroWeatherData).1 =
      DecodeStatus.parErr 0 ∧
    (decodeBresser5In1Payload frameBadChecksum 26 zeroWeatherData).1 =
      DecodeStatus.chkErr (popcountRange frameBadChecksum)
        (frameBadChecksum.getD 13 0) :=
  ⟨decode_error_reporting.1 frameAllZero zeroWeatherData 0 (by decide) (by decide)
     (by decide),
   decode_error_reporting.2 frameBadChecksum zeroWeatherData (by decide) (by decide)
     (by decide) (by decide)⟩


/-- C4: for valid calendar times of the same century, chronological
order at minute granularity coincides with numeric order of the
digit-packed tokens produced by `assembleTargetTime`; and adding
minutes across a day (or month) boundary yields the normalized
next-day token, numerically greater than the same-day token
(23:55 of 2022-06-14 plus 10 minutes gives the 2022-06-15 00:05
token). -/
theorem targetTime_monotone (t1 t2 : Tm) (h1 : validTm t1) (h2 : validTm t2)
    (hlt : chronLt t1 t2) :
    assembleTargetTime t1 0 < assembleTargetTime t2 0 ∧
    assembleTargetTime tm2355 10 = assembleTargetTime tmNextDay 0 ∧
    assembleTargetTime tm2355 10 = 2206150005 ∧
    assembleTargetTime tm2355 0 = 2206142355 ∧
    assembleTargetTime tm2355 0 < assembleTargetTime tm2355 10 ∧
    assembleTargetTime tmJun30 10 = 2207010005 := by
  refine ⟨?_, by decide, by decide, by decide, by decide, by decide⟩
  rw [assembleTargetTime_valid t1 h1, assembleTargetTime_valid t2 h2]
  obtain ⟨-, hmin1, hh1, hd1a, hd1b, hm1, hy1a, hy1b⟩ := h1
  obtain ⟨-, hmin2, hh2, hd2a, hd2b, hm2, hy2a, hy2b⟩ := h2
  have hdm1 := daysInMonth_bounds t1.tm_year t1.tm_mon
  have hdm2 := daysInMonth_bounds t2.tm_year t2.tm_mon
  unfold chronLt at hlt
  omega

theorem targetTime_monotone_witness :
    assembleTargetTime tm2355 0 < assembleTargetTime tmNextDay 0 ∧
    assembleTargetTime tm2355 10 = assembleTargetTime tmNextDay 0 ∧
    assembleTargetTime tm2355 10 = 2206150005 ∧
    assembleTargetTime tm2355 0 = 2206142355 ∧
    assembleTargetTime tm2355 0 < assembleTargetTime tm2355 10 ∧
    assembleTargetTime tmJun30 10 = 2207010005 :=
  targetTime_monotone tm2355 tmNextDay (by decide) (by decide) (by decide)

/-- C5: one step from `SLEEP_UNTIL_TIME_SLOT` with a valid local
time: when the remaining seconds to the next 10-minute wall-clock
boundary are below 30 the next state is `AWAIT_TIME_SLOT` and no
sleep is requested; when they are at least 30 a timed light sleep of
exactly that many seconds is requested, the just-woke flag is set,
the retry counter is reset, and the next state is
`REINIT_WIFI_CONNECTION`. -/
theorem sleep_state_step (w : World) (env : Env) (t : Tm)
    (hst : w.samplingState = SamplingState.SLEEP_UNTIL_TIME_SLOT)
    (ht : env.localTime = some t) (_hv : validTm t) :
    ((sleepTimeMinutes - t.tm_min % sleepTimeMinutes) * 60 - t.tm_sec < 30 →
      (loopStep w env).1.samplingState = SamplingState.AWAIT_TIME_SLOT ∧
      (loopStep w env).2.sleepMicros = none) ∧
    (30 ≤ (sleepTimeMinutes - t.tm_min % sleepTimeMinutes) * 60 - t.tm_sec →
      (loopStep w env).2.sleepMicros =
        some (((sleepTimeMinutes - t.tm_min % sleepTimeMinutes) * 60 - t.tm_sec) *
          1000000) ∧
      (loopStep w env).1.lightSlept = true ∧
      (loopStep w env).1.wifiReinitAttempts = 0 ∧
      (loopStep w env).1.samplingState = SamplingState.REINIT_WIFI_CONNECTION) := by
  simp only [loopStep, hst, ht]
  by_cases hr : 30 ≤ (sleepTimeMinutes - t.tm_min % sleepTimeMinutes) * 60 - t.tm_sec
  · rw [if_pos hr]
    exact ⟨fun h => absurd hr (by omega), fun _ => ⟨rfl, rfl, rfl, rfl⟩⟩
  · rw [if_neg hr]
    exact ⟨fun _ => ⟨rfl, rfl⟩, fun h => absurd h hr⟩

theorem sleep_state_step_witness :
    ((loopStep wSleep envSleepLong).2.sleepMicros =
       some (((sleepTimeMinutes - tmSleepLong.tm_min % sleepTimeMinutes) * 60 -
         tmSleepLong.tm_sec) * 1000000) ∧
     (loopStep wSleep envSleepLong).1.lightSlept = true ∧
     (loopStep wSleep envSleepLong).1.wifiReinitAttempts = 0 ∧
     (loopStep wSleep envSleepLong).1.samplingState =
       SamplingState.REINIT_WIFI_CONNECTION) ∧
    ((loopStep wSleep envSleepShort).1.samplingState = SamplingState.AWAIT_TIME_SLOT ∧
     (loopStep wSleep envSleepShort).2.sleepMicros = none) :=
  ⟨(sleep_state_step wSleep envSleepLong tmSleepLong rfl rfl (by decide)).2 (by decide),
   (sleep_state_step wSleep envSleepShort tmSleepShort rfl rfl (by decide)).1 (by decide)⟩

/-- C6: one step from `REINIT_WIFI_CONNECTION` with WiFi not
connected: while the retry counter is below 40 the state is unchanged
and the counter increments by one; at the cap of 40, an epoch time at
or past the fixed known-good threshold (21 days) sends the machine to
`AWAIT_TIME_SLOT`, and one below it sends it to
`SLEEP_UNTIL_TIME_SLOT`. -/
theorem reinit_state_step (w : World) (env : Env)
    (hst : w.samplingState = SamplingState.REINIT_WIFI_CONNECTION)
    (hw : env.wifiConnected = false) :
    (w.wifiReinitAttempts < 40 →
      (loopStep w env).1.samplingState = SamplingState.REINIT_WIFI_CONNECTION ∧
      (loopStep w env).1.wifiReinitAttempts = w.wifiReinitAttempts + 1) ∧
    (w.wifiReinitAttempts = 40 →
      (24 * 60 * 60 * 21 ≤ env.epochTime →
        (loopStep w env).1.samplingState = SamplingState.AWAIT_TIME_SLOT) ∧
      (env.epochTime < 24 * 60 * 60 * 21 →
        (loopStep w env).1.samplingState = SamplingState.SLEEP_UNTIL_TIME_SLOT)) := by
  simp only [loopStep, hst, hw, Bool.false_eq_true, if_false]
  constructor
  · intro h
    rw [if_pos h]
    exact ⟨rfl, rfl⟩
  · intro h
    rw [if_neg (by omega)]
    constructor
    · intro he
      rw [if_pos he]
    · intro he
      rw [if_neg (by omega)]

theorem reinit_state_step_witness :
    ((loopStep wReinit5 envIdle).1.samplingState =
       SamplingState.REINIT_WIFI_CONNECTION ∧
     (loopStep wReinit5 envIdle).1.wifiReinitAttempts = wReinit5.wifiReinitAttempts + 1) ∧
    (loopStep wReinit40 envNoWifiSynced).1.samplingState =
      SamplingState.AWAIT_TIME_SLOT ∧
    (loopStep wReinit40 envIdle).1.samplingState =
      SamplingState.SLEEP_UNTIL_TIME_SLOT :=
  ⟨(reinit_state_step wReinit5 envIdle rfl rfl).1 (by decide),
   ((reinit_state_step wReinit40 envNoWifiSynced rfl rfl).2 rfl).1 (by decide),
   ((reinit_state_step wReinit40 envIdle rfl rfl).2 rfl).2 (by decide)⟩

/-- C7: a step from `CAPTURE_WEATHER_DATA` whose capture attempt ends
in a radio timeout or a failed decode (parity or checksum) leaves the
state at `CAPTURE_WEATHER_DATA`; the step in which decode returns Ok
transitions to `SEND_WEATHER_DATA`, independently of any failures in
earlier ticks (the step function carries no failure history). -/
theorem capture_state_step (w : World) (env : Env)
    (hst : w.samplingState = SamplingState.CAPTURE_WEATHER_DATA) :
    (env.radioState = RadioResult.timeout →
      (loopStep w env).1.samplingState = SamplingState.CAPTURE_WEATHER_DATA) ∧
    (env.radioState = RadioResult.ok → env.recvData.getD 0 0 = 0xD4 →
      (decodeBresser5In1Payload (env.recvData.drop 1) 26 zeroWeatherData).1 ≠
        DecodeStatus.ok →
      (loopStep w env).1.samplingState = SamplingState.CAPTURE_WEATHER_DATA) ∧
    (env.radioState = RadioResult.ok → env.recvData.getD 0 0 = 0xD4 →
      (decodeBresser5In1Payload (env.recvData.drop 1) 26 zeroWeatherData).1 =
        DecodeStatus.ok →
      (loopStep w env).1.samplingState = SamplingState.SEND_WEATHER_DATA) := by
  refine ⟨?_, ?_, ?_⟩
  · intro hr
    have hcap : capture env w.buffer = (false, w.buffer) := by
      unfold capture
      rw [hr]
    simp only [loopStep, hst, hcap]
    rfl
  · intro hr hsync hdec
    have hcap : (capture env w.buffer).1 = false := by
      unfold capture
      rw [hr]
      cases hd : decodeBresser5In1Payload (env.recvData.drop 1) 26 zeroWeatherData with
      | mk st wd =>
        cases st with
        | ok =>
          exact absurd (by rw [hd]) hdec
        | parErr o =>
          rw [if_pos hsync]
        | chkErr a e =>
          rw [if_pos hsync]
    simp only [loopStep, hst]
    rw [if_neg (by rw [hcap]; exact Bool.false_ne_true)]
  · intro hr hsync hdec
    cases hd : decodeBresser5In1Payload (env.recvData.drop 1) 26 zeroWeatherData with
    | mk st wd =>
      rw [hd] at hdec
      cases st with
      | parErr o => exact absurd hdec (by simp)
      | chkErr a e => exact absurd hdec (by simp)
      | ok =>
        have hcap : (capture env w.buffer).1 = true := by
          unfold capture
          rw [hr]
          rw [if_pos hsync, hd]
        simp only [loopStep, hst]
        rw [if_pos hcap]

theorem capture_state_step_witness :
    (loopStep wCapture envIdle).1.samplingState = SamplingState.CAPTURE_WEATHER_DATA ∧
    (loopStep wCapture envBadFrame).1.samplingState =
      SamplingState.CAPTURE_WEATHER_DATA ∧
    (loopStep wCapture envGoodFrame).1.samplingState = SamplingState.SEND_WEATHER_DATA :=
  ⟨(capture_state_step wCapture envIdle rfl).1 rfl,
   (capture_state_step wCapture envBadFrame rfl).2.1 rfl (by decide) (by decide),
   (capture_state_step wCapture envGoodFrame rfl).2.2 rfl (by decide) (by decide)⟩

/-- C8: a step from `SEND_WEATHER_DATA` runs one upload cycle that
attempts at most 20 buffered entries — the surviving buffer is the
original with at most its first 20 entries removed, and nothing is
removed when every per-entry upload fails — and then transitions to
`SLEEP_UNTIL_TIME_SLOT` unconditionally. -/
theorem send_state_step (w : World) (env : Env)
    (hst : w.samplingState = SamplingState.SEND_WEATHER_DATA) :
    (loopStep w env).1.samplingState = SamplingState.SLEEP_UNTIL_TIME_SLOT ∧
    ∃ k, k ≤ 20 ∧ (loopStep w env).1.buffer = w.buffer.drop k ∧
      ((∀ i, i < 20 → env.uploadOk i = false) →
        (loopStep w env).1.buffer = w.buffer) := by
  have hbuf : (loopStep w env).1.buffer = (send env w.buffer).2 := by
    simp only [loopStep, hst]
  have hstate :
      (loopStep w env).1.samplingState = SamplingState.SLEEP_UNTIL_TIME_SLOT := by
    simp only [loopStep, hst]
  refine ⟨hstate, ?_⟩
  cases hw : env.wifiConnected with
  | false =>
    refine ⟨0, by omega, ?_, fun _ => ?_⟩ <;> rw [hbuf] <;> simp [send, hw]
  | true =>
    cases htok : env.tokenReady with
    | false =>
      refine ⟨0, by omega, ?_, fun _ => ?_⟩ <;> rw [hbuf] <;> simp [send, hw, htok]
    | true =>
      obtain ⟨k, hk, hdrop, hall⟩ := sendLoop_drop env.uploadOk 20 0 false w.buffer
      refine ⟨k, hk, ?_, fun h => ?_⟩
      · rw [hbuf]
        simp only [send, hw, htok, if_true]
        exact hdrop
      · rw [hbuf]
        simp only [send, hw, htok, if_true]
        exact hall (fun j hj1 hj2 => h j (by omega))

theorem send_state_step_witness :
    (loopStep wSend envUploadFail).1.samplingState =
      SamplingState.SLEEP_UNTIL_TIME_SLOT ∧
    ∃ k, k ≤ 20 ∧ (loopStep wSend envUploadFail).1.buffer = wSend.buffer.drop k ∧
      ((∀ i, i < 20 → envUploadFail.uploadOk i = false) →
        (loopStep wSend envUploadFail).1.buffer = wSend.buffer) :=
  send_state_step wSend envUploadFail rfl
